import Mathlib

/-!
Verification of the task-list core of `kreqo-habits` (`src/todo.rs`, `src/ui.rs`).

The server functions (`get_todos`, `add_todo`, `update_todo`, `delete_todo`)
are embedded as pure Lean functions over an explicit row store, with the
fallible environment (SQL pool availability, SQL execution success, the
identity gateway result) passed in explicitly.  The client-side behaviour of
the `Todos` and `Todo` components (version-gated refetching, optimistic
toggles, pending-submission rendering) is embedded as a step function on an
explicit client state.
-/

namespace KreqoHabits

/-- Modelled from the spec: the `User` identity type lives in `auth.rs`, which
is not among the provided sources.  Per the spec data model, an Identity is
`{ id: integer, username: string }`. -/
structure User where
  id : Int
  username : String
deriving Repr, DecidableEq

/-- Modelled from the spec: `resolveIdentity(numericRef) -> Identity | none`
(never fails — returns none on miss).  This models `User::get(id, pool)` from
`auth.rs`; the call site in `SqlTodo::into_todo` shows it returns
`Option<User>` without an error path. -/
def User.get (users : List User) (id : Int) : Option User :=
  users.find? (fun u => u.id == id)

/-- Modelled from the spec: the default/"unknown" display identity produced by
`User::default()` (used by `todo.user.unwrap_or_default()` in the `Todo`
component) when no matching identity exists. -/
def User.unknown : User :=
  { id := -1, username := "Guest" }

/-- `struct Todo` from `todo.rs` lines 8–15: `id: u32`, `user: Option<User>`,
`title: String`, `created_at: String`, `completed: bool`.  `u32` is embedded
as `Nat` (values below `2^32`). -/
structure Todo where
  id : Nat
  user : Option User
  title : String
  created_at : String
  completed : Bool
deriving Repr, DecidableEq

/-- `struct SqlTodo` from `todo.rs` lines 35–42: the raw table row, holding
the numeric owner reference `user_id: i64` instead of a resolved identity. -/
structure SqlTodo where
  id : Nat
  user_id : Int
  title : String
  created_at : String
  completed : Bool
deriving Repr, DecidableEq

/-- The errors a server function can produce.  The code produces
`ServerError("Pool missing.")` / `ServerError("Auth session missing.")` from
the context helpers and propagates sqlx failures (the spec's `StoreError`).
`NotFound` and `ValidationError` are the further constructors named by the
spec's taxonomy; they are present so that claims about them can be stated. -/
inductive ServerFnError where
  | PoolMissing
  | AuthUnavailable
  | StoreError
  | NotFound
  | ValidationError
deriving Repr, DecidableEq

/-- The fallible environment of a server-function call: whether
`pool()` succeeds and whether the sqlx query itself succeeds. -/
structure DbEnv where
  poolOk : Bool
  execOk : Bool
deriving Repr, DecidableEq

/-- The fully working environment. -/
def DbEnv.ok : DbEnv := { poolOk := true, execOk := true }

/-- `SqlTodo::into_todo` from `todo.rs` lines 44–54: resolves the row's
`user_id` through `User::get` (a lookup that returns `None` on a miss) and
repackages the row.  It has no failure path. -/
def SqlTodo.into_todo (users : List User) (t : SqlTodo) : Todo :=
  { id := t.id
    user := User.get users t.user_id
    title := t.title
    created_at := t.created_at
    completed := t.completed }

/-- `get_todos` from `todo.rs` lines 57–72: fetches all rows
(`SELECT * FROM todos`), then resolves each row's owner with `into_todo`.
The lookups are issued through `futures::future::join_all`, which polls the
futures concurrently but collects the outputs in the order of the input
iterator, i.e. the row order — hence the plain `map` here. -/
def get_todos (env : DbEnv) (users : List User) (db : List SqlTodo) :
    Except ServerFnError (List Todo) :=
  if !env.poolOk then .error .PoolMissing
  else if !env.execOk then .error .StoreError
  else .ok (db.map (SqlTodo.into_todo users))

/-- The id the store assigns to a freshly inserted row: one more than the
largest id in use (sqlite rowid allocation). -/
def freshId (db : List SqlTodo) : Nat :=
  (db.map SqlTodo.id).foldr max 0 + 1

/-- `add_todo` from `todo.rs` lines 74–97.  In order: `get_user().await?`
(the identity-gateway result is passed in as `userRes`), `pool()?`, the
owner reference (`user.id`, or the anonymous sentinel `-1` when no session
is active), then
`INSERT INTO todos (title, user_id, completed) VALUES (?, ?, false)`.
There is no validation of `title`.  `created_at` is filled by the store's
column default, passed in here as `now`.  The artificial 1250 ms delay has
no effect on the resulting state. -/
def add_todo (env : DbEnv) (userRes : Except ServerFnError (Option User))
    (db : List SqlTodo) (title : String) (now : String) :
    Except ServerFnError (List SqlTodo) :=
  match userRes with
  | .error e => .error e
  | .ok user =>
    if !env.poolOk then .error .PoolMissing
    else
      let uid : Int := match user with
        | some u => u.id
        | none => -1
      if !env.execOk then .error .StoreError
      else .ok (db ++ [{ id := freshId db, user_id := uid, title := title,
                         created_at := now, completed := false }])

/-- `update_todo` from `todo.rs` lines 99–113:
`UPDATE todos SET completed = $2 WHERE id = $1`.  The affected-row count is
discarded (`.map(|_| ())`), so a missing id is not distinguished from a hit;
the only failure sources are the pool lookup and the sqlx execution. -/
def update_todo (env : DbEnv) (db : List SqlTodo) (id : Nat)
    (completed : Bool) : Except ServerFnError (List SqlTodo) :=
  if !env.poolOk then .error .PoolMissing
  else if !env.execOk then .error .StoreError
  else .ok (db.map (fun r => if r.id = id then { r with completed := completed } else r))

/-- `delete_todo` from `todo.rs` lines 115–126:
`DELETE FROM todos WHERE id = $1`.  The public parameter is `id: u16`, so the
embedding takes a `Nat` together with the claims' hypothesis `id < 2^16`
where the width matters.  The affected-row count is discarded, so deleting a
nonexistent id succeeds. -/
def delete_todo (env : DbEnv) (db : List SqlTodo) (id : Nat) :
    Except ServerFnError (List SqlTodo) :=
  if !env.poolOk then .error .PoolMissing
  else if !env.execOk then .error .StoreError
  else .ok (db.filter (fun r => r.id ≠ id))

/-- The outcome of a client-side spawned task: either it returns a value, or
an `unwrap()` of an `Err` aborts it with a panic. -/
inductive TaskOutcome (α : Type) where
  | returned (a : α)
  | panicked
deriving Repr, DecidableEq

/-- `.unwrap()` on a `Result`: yields the value on `Ok`, panics on `Err`. -/
def unwrapOutcome {α : Type} : Except ServerFnError α → TaskOutcome α
  | .ok a => .returned a
  | .error _ => .panicked

/-- What the checkbox `on:change` handler of the `Todo` component leaves
behind: the local `completed` signal value and the outcome of the spawned
confirmation task. -/
structure ToggleResult where
  localCompleted : Bool
  confirm : TaskOutcome Unit
deriving Repr, DecidableEq

/-- The `on:change` handler of the `Todo` component (`todo.rs` lines
346–353): it sets the local `completed` signal to the checkbox value
immediately, then spawns `update_todo(todo.id, checked).await.unwrap()` —
the confirmation result is unwrapped, so an error panics the spawned task
instead of being surfaced or reverting the flip. -/
def toggle_handler (checked : Bool)
    (updateRes : Except ServerFnError Unit) : ToggleResult :=
  { localCompleted := checked, confirm := unwrapOutcome updateRes }

/-- The reactive state of the `Todos` component (`todo.rs` lines 235–321):
the version counters of the `add_todo` multi-action and the `delete_todo`
action (the source key of the `todos` resource), the key at which the
resource last fetched, and the displayed list (authoritative rows with the
per-row local `completed` signals applied). -/
structure TodosState where
  addVersion : Nat
  deleteVersion : Nat
  fetchedKey : Nat × Nat
  display : List Todo
deriving Repr, DecidableEq

/-- A client-side event: a terminal transition of a create or delete
mutation (which bumps the corresponding action's version counter), or a
checkbox toggle on the row with the given id. -/
inductive ClientEvent where
  | addDone
  | deleteDone
  | toggle (id : Nat) (checked : Bool)
deriving Repr, DecidableEq

/-- The optimistic local flip: set the displayed `completed` flag of the row
with the given id (the per-row `create_signal` in the `Todo` component). -/
def applyToggle (id : Nat) (checked : Bool) (l : List Todo) : List Todo :=
  l.map (fun t => if t.id = id then { t with completed := checked } else t)

/-- One client-side step.  Terminal create/delete transitions bump the
respective version counters; a toggle only updates the displayed flag
locally (`set_completed.set(checked)`), touching no version counter. -/
def stepClient (s : TodosState) : ClientEvent → TodosState
  | .addDone => { s with addVersion := s.addVersion + 1 }
  | .deleteDone => { s with deleteVersion := s.deleteVersion + 1 }
  | .toggle id checked => { s with display := applyToggle id checked s.display }

/-- Whether the `todos` resource refetches: `create_resource` re-runs its
fetcher exactly when its source `(add_todo.version(), delete_todo.version())`
differs from the key of the last fetch. -/
def refetchNeeded (s : TodosState) : Bool :=
  decide ((s.addVersion, s.deleteVersion) ≠ s.fetchedKey)

/-- One entry of the rendered task list (`<li>` children of the `<ul>`): a
confirmed row rendered by the `Todo` component, or a still-pending
`add_todo` submission rendered by the `PendingTodo` component (which shows
the submitted title, when the input signal is populated). -/
inductive ViewEntry where
  | confirmed (t : Todo)
  | pendingEntry (title : Option String)
deriving Repr, DecidableEq

/-- A submission of the `add_todo` multi-action: its input signal (the
submitted title, `None` until populated) and whether it is still pending. -/
structure Submission where
  input : Option String
  pending : Bool
deriving Repr, DecidableEq

/-- The `existing_todos` closure of the `Todos` component: the authoritative
list rendered in order, one `Todo` component per row. -/
def existing_todos (todos : List Todo) : List ViewEntry :=
  todos.map ViewEntry.confirmed

/-- The `pending_todos` closure of the `Todos` component: the multi-action's
submissions filtered to the still-pending ones, each rendered as a
`PendingTodo`. -/
def pending_todos (subs : List Submission) : List ViewEntry :=
  (subs.filter (fun s => s.pending)).map (fun s => ViewEntry.pendingEntry s.input)

/-- The rendered list `{existing_todos} {pending_todos}` inside the `<ul>`:
authoritative entries first, then the pending entries. -/
def todos_view (todos : List Todo) (subs : List Submission) : List ViewEntry :=
  existing_todos todos ++ pending_todos subs

/-! ## Shared helper lemmas -/

theorem list_map_eq_self {α : Type} (l : List α) (f : α → α)
    (h : ∀ x ∈ l, f x = x) : l.map f = l := by
  induction l with
  | nil => rfl
  | cons a t ih =>
    simp only [List.map_cons]
    rw [h a (List.mem_cons_self a t), ih (fun x hx => h x (List.mem_cons_of_mem a hx))]

/-! ## C1: toggling a nonexistent id -/

/-- C1 counterexample: on the empty store, `update_todo` with the nonexistent
id 5 succeeds as a no-op instead of failing with `NotFound`. -/
theorem update_todo_missing_id_cex :
    update_todo DbEnv.ok [] 5 true = Except.ok [] ∧
    update_todo DbEnv.ok [] 5 true ≠ Except.error ServerFnError.NotFound := by
  refine ⟨rfl, fun h => ?_⟩
  rw [show update_todo DbEnv.ok [] 5 true = Except.ok [] from rfl] at h
  exact Except.noConfusion h

/-- C1 (amended): `update_todo` never fails with `NotFound`: its only error
outcomes are `PoolMissing` and `StoreError` (persistence failures), and on a
working environment an update of a nonexistent id succeeds with the store
unchanged (the affected-row count of zero is discarded). -/
theorem update_todo_missing_id_noop (env : DbEnv) (db : List SqlTodo)
    (id : Nat) (completed : Bool) :
    (∀ e, update_todo env db id completed = Except.error e →
      e = ServerFnError.PoolMissing ∨ e = ServerFnError.StoreError) ∧
    ((∀ r ∈ db, r.id ≠ id) → env.poolOk = true → env.execOk = true →
      update_todo env db id completed = Except.ok db) := by
  constructor
  · intro e he
    obtain ⟨p, x⟩ := env
    cases p <;> cases x <;> simp_all [update_todo]
  · intro hmiss hp hx
    have hmap : db.map
        (fun r => if r.id = id then { r with completed := completed } else r) = db :=
      list_map_eq_self db _ (fun r hr => if_neg (hmiss r hr))
    simp [update_todo, hp, hx, hmap]

/-- C1 witness: the amended theorem applied on a one-row store and an id
absent from it. -/
theorem update_todo_missing_id_noop_witness :
    update_todo DbEnv.ok
        [{ id := 1, user_id := -1, title := "a", created_at := "t", completed := false }] 7 true =
      Except.ok
        [{ id := 1, user_id := -1, title := "a", created_at := "t", completed := false }] :=
  (update_todo_missing_id_noop DbEnv.ok
      [{ id := 1, user_id := -1, title := "a", created_at := "t", completed := false }] 7 true).2
    (by decide) rfl rfl

/-! ## C3: title validation on create -/

/-- C3 counterexample: `add_todo` with the empty title succeeds and inserts a
row, instead of failing with `ValidationError`. -/
theorem add_todo_empty_title_cex :
    add_todo DbEnv.ok (Except.ok none) [] "" "2024-01-01" =
      Except.ok [{ id := 1, user_id := -1, title := "",
                   created_at := "2024-01-01", completed := false }] ∧
    add_todo DbEnv.ok (Except.ok none) [] "" "2024-01-01" ≠
      Except.error ServerFnError.ValidationError := by
  refine ⟨rfl, fun h => ?_⟩
  rw [show add_todo DbEnv.ok (Except.ok none) [] "" "2024-01-01" =
        Except.ok [{ id := 1, user_id := -1, title := "",
                     created_at := "2024-01-01", completed := false }] from rfl] at h
  exact Except.noConfusion h

/-- C3 (amended): `add_todo` performs no title validation: for every title,
the empty string included, a call with a working environment and a resolved
identity-gateway result inserts exactly one row; and with a resolved gateway
result it never fails with `ValidationError`, whatever the environment. -/
theorem add_todo_no_title_validation (env : DbEnv) (user : Option User)
    (db : List SqlTodo) (title now : String)
    (hp : env.poolOk = true) (hx : env.execOk = true) :
    add_todo env (Except.ok user) db title now =
      Except.ok (db ++ [{ id := freshId db,
                          user_id := (match user with | some u => u.id | none => -1),
                          title := title, created_at := now, completed := false }]) ∧
    ∀ env2 : DbEnv, add_todo env2 (Except.ok user) db title now ≠
      Except.error ServerFnError.ValidationError := by
  constructor
  · simp [add_todo, hp, hx]
  · intro env2 h
    obtain ⟨p, x⟩ := env2
    cases p <;> cases x <;> simp_all [add_todo]

/-- C3 witness: the amended theorem applied with the empty title on the empty
store. -/
theorem add_todo_no_title_validation_witness :
    add_todo DbEnv.ok (Except.ok none) [] "" "2024-01-01" =
      Except.ok [{ id := 1, user_id := -1, title := "",
                   created_at := "2024-01-01", completed := false }] :=
  (add_todo_no_title_validation DbEnv.ok none [] "" "2024-01-01" rfl rfl).1

/-! ## C4: delete is idempotent and total -/

/-- C4: on a working environment `delete_todo` always succeeds; after one
delete the id is absent, a second delete of the same id returns the same
store, and deleting a nonexistent id succeeds with the store unchanged. -/
theorem delete_todo_idempotent_total (db : List SqlTodo) (id : Nat) :
    (∃ db2,
      delete_todo DbEnv.ok db id = Except.ok db2 ∧
      delete_todo DbEnv.ok db2 id = Except.ok db2 ∧
      ∀ r ∈ db2, r.id ≠ id) ∧
    ((∀ r ∈ db, r.id ≠ id) → delete_todo DbEnv.ok db id = Except.ok db) := by
  constructor
  · refine ⟨db.filter (fun r => r.id ≠ id), rfl, ?_, ?_⟩
    · have hself : (db.filter (fun r => r.id ≠ id)).filter (fun r => r.id ≠ id) =
          db.filter (fun r => r.id ≠ id) :=
        List.filter_eq_self.mpr (fun a ha => (List.mem_filter.mp ha).2)
      simp [delete_todo, DbEnv.ok, hself]
    · intro r hr
      have := (List.mem_filter.mp hr).2
      simpa using this
  · intro hmiss
    simp [delete_todo, DbEnv.ok]
    exact hmiss

/-- C4 witness: the theorem applied on a one-row store and an id absent from
it. -/
theorem delete_todo_idempotent_total_witness :
    delete_todo DbEnv.ok
        [{ id := 1, user_id := -1, title := "a", created_at := "t", completed := false }] 3 =
      Except.ok
        [{ id := 1, user_id := -1, title := "a", created_at := "t", completed := false }] :=
  (delete_todo_idempotent_total
      [{ id := 1, user_id := -1, title := "a", created_at := "t", completed := false }] 3).2
    (by decide)

/-! ## C10: the u16 delete parameter cannot address u32 ids ≥ 2^16 -/

/-- C10: `delete_todo` takes its id as a `u16` while `Todo.id` is a `u32`,
so every task row whose id is at least `2^16` (and below `2^32`) survives
every delete request expressible through the public interface. -/
theorem delete_todo_u16_cannot_reach_high_id (env : DbEnv) (db : List SqlTodo)
    (id : Nat) (hid : id < 2 ^ 16) (t : SqlTodo) (ht : t ∈ db)
    (hbig : 2 ^ 16 ≤ t.id) (hrep : t.id < 2 ^ 32) :
    ∀ db2, delete_todo env db id = Except.ok db2 → t ∈ db2 := by
  intro db2 h
  obtain ⟨p, x⟩ := env
  cases p <;> cases x <;> simp [delete_todo] at h
  subst h
  refine List.mem_filter.mpr ⟨ht, ?_⟩
  have hne : t.id ≠ id := by omega
  simp [hne]

/-- C10 witness: the theorem applied to a row with id 70000 and the largest
expressible delete id, 65535. -/
theorem delete_todo_u16_cannot_reach_high_id_witness :
    ({ id := 70000, user_id := -1, title := "x", created_at := "t",
       completed := false } : SqlTodo) ∈
      [({ id := 70000, user_id := -1, title := "x", created_at := "t",
          completed := false } : SqlTodo)] :=
  delete_todo_u16_cannot_reach_high_id DbEnv.ok
    [{ id := 70000, user_id := -1, title := "x", created_at := "t", completed := false }]
    65535 (by decide)
    { id := 70000, user_id := -1, title := "x", created_at := "t", completed := false }
    (by decide) (by decide) (by decide)
    [{ id := 70000, user_id := -1, title := "x", created_at := "t", completed := false }]
    rfl

/-! ## C2: the toggle confirmation error path -/

/-- C2 counterexample: when the `update_todo` confirmation of an optimistic
toggle fails, the handler's `unwrap()` panics the spawned task — an aborting
error path, not a per-operation surfaced failure. -/
theorem toggle_confirm_panics_cex :
    (toggle_handler true (Except.error ServerFnError.StoreError)).confirm =
      TaskOutcome.panicked := rfl

/-- C2 (amended): the optimistic flip is kept (the local completed signal is
set to the checkbox value) whatever the confirmation outcome, and the
spawned confirmation task panics exactly when `update_todo` fails — the
failure aborts the task via `unwrap()` instead of being surfaced. -/
theorem toggle_flip_kept_confirm_unwrapped (checked : Bool)
    (updateRes : Except ServerFnError Unit) :
    (toggle_handler checked updateRes).localCompleted = checked ∧
    ((toggle_handler checked updateRes).confirm = TaskOutcome.panicked ↔
      ∃ e, updateRes = Except.error e) := by
  refine ⟨rfl, ?_⟩
  cases updateRes with
  | ok a => simp [toggle_handler, unwrapOutcome]
  | error e => simp [toggle_handler, unwrapOutcome]

/-- C2 witness: the amended theorem applied to a failing confirmation. -/
theorem toggle_flip_kept_confirm_unwrapped_witness :
    (toggle_handler true (Except.error ServerFnError.StoreError)).localCompleted
      = true :=
  (toggle_flip_kept_confirm_unwrapped true
    (Except.error ServerFnError.StoreError)).1

/-! ## C5: owner reference and completed flag of a fresh row -/

/-- C5: every successful `add_todo` call appends exactly one row, with
`completed = false` and owner reference the session identity's id, or the
anonymous sentinel `-1` when no session is active; when the identity list
contains no identity with id `-1` (spec: signup-assigned ids), an anonymous
row resolves to no identity and displays as the unknown identity. -/
theorem add_todo_new_row_owner (env : DbEnv) (user : Option User)
    (db : List SqlTodo) (title now : String) (users : List User)
    (husers : ∀ u ∈ users, u.id ≠ -1) :
    ∀ db2, add_todo env (Except.ok user) db title now = Except.ok db2 →
      ∃ r, db2 = db ++ [r] ∧ r.completed = false ∧
        r.user_id = (match user with | some u => u.id | none => -1) ∧
        (user = none →
          (SqlTodo.into_todo users r).user = none ∧
          ((SqlTodo.into_todo users r).user.getD User.unknown) = User.unknown) := by
  intro db2 h
  obtain ⟨p, x⟩ := env
  cases p <;> cases x <;> simp [add_todo] at h
  refine ⟨_, h.symm, rfl, rfl, ?_⟩
  intro hnone
  subst hnone
  have hfind : User.get users (-1) = none :=
    List.find?_eq_none.mpr (fun u hu => by simpa using husers u hu)
  constructor
  · simpa [SqlTodo.into_todo] using hfind
  · simp [SqlTodo.into_todo, hfind]

/-- C5 witness: an anonymous create of "Buy milk" on the empty store, with
an identity list holding only the signup identity "alice" (id 1). -/
theorem add_todo_new_row_owner_witness :
    ∃ r, ([{ id := 1, user_id := -1, title := "Buy milk", created_at := "t",
             completed := false }] : List SqlTodo) = [] ++ [r] ∧
      r.completed = false ∧
      r.user_id = (match (none : Option User) with | some u => u.id | none => -1) ∧
      ((none : Option User) = none →
        (SqlTodo.into_todo [{ id := 1, username := "alice" }] r).user = none ∧
        ((SqlTodo.into_todo [{ id := 1, username := "alice" }] r).user.getD
            User.unknown) = User.unknown) :=
  add_todo_new_row_owner DbEnv.ok none [] "Buy milk" "t"
    [{ id := 1, username := "alice" }] (by decide)
    [{ id := 1, user_id := -1, title := "Buy milk", created_at := "t",
       completed := false }] rfl

/-! ## C6: missing identities never fail the read -/

/-- C6: resolving a row's numeric owner reference against an identity list
with no matching id (the anonymous sentinel included) yields no identity —
rendered as the unknown identity via `unwrap_or_default` — and `get_todos`
still succeeds on a working environment, whatever the identity list. -/
theorem into_todo_unknown_owner (users : List User) (db : List SqlTodo)
    (t : SqlTodo) (_ht : t ∈ db) (hmiss : ∀ u ∈ users, u.id ≠ t.user_id) :
    (SqlTodo.into_todo users t).user = none ∧
    ((SqlTodo.into_todo users t).user.getD User.unknown) = User.unknown ∧
    ∀ env : DbEnv, env.poolOk = true → env.execOk = true →
      get_todos env users db = Except.ok (db.map (SqlTodo.into_todo users)) := by
  have hfind : User.get users t.user_id = none :=
    List.find?_eq_none.mpr (fun u hu => by simpa using hmiss u hu)
  refine ⟨?_, ?_, ?_⟩
  · simpa [SqlTodo.into_todo] using hfind
  · simp [SqlTodo.into_todo, hfind]
  · intro env hp hx
    simp [get_todos, hp, hx]

/-- C6 witness: an anonymous row (owner reference `-1`) resolved against the
identity list holding only "alice" (id 1). -/
theorem into_todo_unknown_owner_witness :
    (SqlTodo.into_todo [{ id := 1, username := "alice" }]
        { id := 1, user_id := -1, title := "a", created_at := "t",
          completed := false }).user = none :=
  (into_todo_unknown_owner [{ id := 1, username := "alice" }]
      [{ id := 1, user_id := -1, title := "a", created_at := "t",
         completed := false }]
      { id := 1, user_id := -1, title := "a", created_at := "t",
        completed := false }
      (by decide) (by decide)).1

/-! ## C7: order-preserving assembly of the task list -/

/-- C7: on a working environment `get_todos` succeeds and assembles the task
list by resolving each row independently, preserving row order: the result
has the row list's length and its i-th element is the i-th row's `into_todo`
image. -/
theorem get_todos_preserves_order (env : DbEnv) (users : List User)
    (db : List SqlTodo) (hp : env.poolOk = true) (hx : env.execOk = true) :
    ∃ ts, get_todos env users db = Except.ok ts ∧
      ts.length = db.length ∧
      ∀ i : Nat, ts[i]? = (db[i]?).map (SqlTodo.into_todo users) := by
  refine ⟨db.map (SqlTodo.into_todo users), ?_, by simp, ?_⟩
  · simp [get_todos, hp, hx]
  · intro i
    exact List.getElem?_map _ _ _

/-- C7 witness: the theorem applied to a two-row store and an empty identity
list. -/
theorem get_todos_preserves_order_witness :
    ∃ ts, get_todos DbEnv.ok []
        [{ id := 1, user_id := -1, title := "a", created_at := "t", completed := false },
         { id := 2, user_id := 1, title := "b", created_at := "u", completed := true }] =
        Except.ok ts ∧
      ts.length =
        ([{ id := 1, user_id := -1, title := "a", created_at := "t", completed := false },
          { id := 2, user_id := 1, title := "b", created_at := "u", completed := true }] :
            List SqlTodo).length ∧
      ∀ i : Nat, ts[i]? =
        (([{ id := 1, user_id := -1, title := "a", created_at := "t", completed := false },
           { id := 2, user_id := 1, title := "b", created_at := "u", completed := true }] :
             List SqlTodo)[i]?).map (SqlTodo.into_todo []) :=
  get_todos_preserves_order DbEnv.ok []
    [{ id := 1, user_id := -1, title := "a", created_at := "t", completed := false },
     { id := 2, user_id := 1, title := "b", created_at := "u", completed := true }]
    rfl rfl

/-! ## C8: refetch gating by the create/delete version counters -/

/-- C8: from a state whose resource key is in sync with the version
counters, a terminal create or delete transition moves the resource's source
key and so triggers a refetch, while a toggle leaves both version counters
unchanged, never forces a refetch, and updates the displayed completed flag
of the matching row locally. -/
theorem refetch_gated_by_create_delete (s : TodosState)
    (hsync : s.fetchedKey = (s.addVersion, s.deleteVersion)) :
    refetchNeeded (stepClient s ClientEvent.addDone) = true ∧
    refetchNeeded (stepClient s ClientEvent.deleteDone) = true ∧
    ∀ id checked,
      refetchNeeded (stepClient s (ClientEvent.toggle id checked)) = false ∧
      (stepClient s (ClientEvent.toggle id checked)).addVersion = s.addVersion ∧
      (stepClient s (ClientEvent.toggle id checked)).deleteVersion = s.deleteVersion ∧
      ∀ t ∈ (stepClient s (ClientEvent.toggle id checked)).display,
        t.id = id → t.completed = checked := by
  refine ⟨?_, ?_, ?_⟩
  · simp [refetchNeeded, stepClient, hsync]
  · simp [refetchNeeded, stepClient, hsync]
  · intro id checked
    refine ⟨?_, rfl, rfl, ?_⟩
    · simp [refetchNeeded, stepClient, hsync]
    · intro t htmem htid
      simp only [stepClient, applyToggle, List.mem_map] at htmem
      obtain ⟨r, hr, hrt⟩ := htmem
      by_cases hrid : r.id = id
      · rw [if_pos hrid] at hrt
        rw [← hrt]
      · rw [if_neg hrid] at hrt
        rw [← hrt] at htid
        exact absurd htid hrid

/-- C8 witness: the theorem applied to a synced state displaying one row,
through a terminal create transition and a toggle of that row. -/
theorem refetch_gated_by_create_delete_witness :
    refetchNeeded (stepClient
      { addVersion := 0, deleteVersion := 0, fetchedKey := (0, 0),
        display := [{ id := 1, user := none, title := "a", created_at := "t",
                      completed := false }] }
      ClientEvent.addDone) = true :=
  (refetch_gated_by_create_delete
    { addVersion := 0, deleteVersion := 0, fetchedKey := (0, 0),
      display := [{ id := 1, user := none, title := "a", created_at := "t",
                    completed := false }] }
    rfl).1

/-! ## C9: shape of the reconciled view -/

/-- C9: the rendered list is the authoritative list in its returned order
followed by exactly one pending entry per still-pending create submission:
the first `todos.length` entries are the confirmed rows in order, the total
length is the authoritative length plus the pending-submission count, a
submission contributes exactly one entry while pending and none once it is
not, and with exactly one pending submission the visible length is the
authoritative length plus one. -/
theorem todos_view_reconciliation (todos : List Todo) (subs : List Submission) :
    (∀ i : Nat, i < todos.length →
      (todos_view todos subs)[i]? = (todos[i]?).map ViewEntry.confirmed) ∧
    (todos_view todos subs).length =
      todos.length + subs.countP (fun s => s.pending) ∧
    (∀ s rest, pending_todos (s :: rest) =
      (if s.pending then [ViewEntry.pendingEntry s.input] else []) ++
        pending_todos rest) ∧
    (subs.countP (fun s => s.pending) = 1 →
      (todos_view todos subs).length = todos.length + 1) := by
  have hlen : (todos_view todos subs).length =
      todos.length + subs.countP (fun s => s.pending) := by
    simp [todos_view, existing_todos, pending_todos, List.countP_eq_length_filter]
  refine ⟨?_, hlen, ?_, ?_⟩
  · intro i hi
    simp only [todos_view]
    rw [List.getElem?_append]
    have hi2 : i < (existing_todos todos).length := by
      simpa [existing_todos] using hi
    simp [existing_todos, hi2, List.getElem?_map]
    intro hge
    exact absurd hge (by omega)
  · intro s rest
    by_cases hs : s.pending
    · simp [pending_todos, List.filter_cons, hs]
    · simp [pending_todos, List.filter_cons, hs]
  · intro hone
    rw [hlen, hone]

/-- C9 witness: with an empty authoritative list and exactly one pending
"Buy milk" submission, the visible list length is the authoritative length
plus one. -/
theorem todos_view_reconciliation_witness :
    (todos_view [] [{ input := some "Buy milk", pending := true }]).length =
      ([] : List Todo).length + 1 :=
  (todos_view_reconciliation []
    [{ input := some "Buy milk", pending := true }]).2.2.2 (by decide)

end KreqoHabits
